import Mathlib

/-!
Shallow embedding of `src/lambda-runtime-client/src/client.rs` (the runtime
API client of the aws-lambda-rust-runtime repository), together with proofs
about its header codec and the response-handling logic of the four protocol
calls (`next_event`, `event_response`, `event_error`, `fail_init`).

Network transport (hyper), JSON parsing (serde_json) and the `crate::error`
module are external to `src/`; they are modelled explicitly below, each such
model marked in its doc comment.
-/

namespace LambdaRuntimeClient

/-! ## Error taxonomy -/

/-- Modelled from the spec: `crate::error::ApiError` lives in `error.rs`,
which is not under `src/`. Per spec §4.3, transport/decode errors "always
carry an `unrecoverable: bool` flag, default `false`", with a message
string. -/
structure ApiError where
  msg : String
  unrecoverable : Bool
deriving DecidableEq, Repr

/-- `ApiError::new(msg)` — modelled from the spec: the flag defaults to
`false`. -/
def ApiError.new (m : String) : ApiError := ⟨m, false⟩

/-- The `unrecoverable()` builder method used at client.rs line 183
(`ApiError::new(..).unrecoverable().clone()`): sets the flag. Renamed to
avoid clashing with the Lean field name. -/
def ApiError.setUnrecoverable (e : ApiError) : ApiError := { e with unrecoverable := true }

/-- Modelled from the spec: the `From<ToStrError>` conversion applied by `?`
on `value.to_str()?` — a decode error, recoverable by default (§4.3
"non-UTF8 header value" is a transport/decode error with default
`unrecoverable = false`). -/
def ApiError.fromToStrError : ApiError := ⟨"header value is not visible ASCII", false⟩

/-- Modelled from the spec: the `From<ParseIntError>` conversion applied by
`?` on `value.to_str()?.parse()?` — a decode error, recoverable by
default. -/
def ApiError.fromParseIntError : ApiError := ⟨"invalid digit found in string", false⟩

/-- Modelled from the spec: the `From<serde_json::Error>` conversion applied
by `?` on `serde_json::from_str(..)?` — a decode error, recoverable by
default, carrying the JSON parser's message. -/
def ApiError.fromJsonError (m : String) : ApiError := ⟨"error parsing JSON: " ++ m, false⟩

/-- Modelled from the spec: the `From<hyper::Error>` conversion applied to a
transport failure — recoverable by default. -/
def ApiError.fromHyperError (m : String) : ApiError := ⟨m, false⟩

/-! ## Context model (client.rs lines 60-121) -/

/-- AWS Mobile SDK client properties (client.rs `ClientApplication`). -/
structure ClientApplication where
  installation_id : String
  app_title : String
  app_version_name : String
  app_version_code : String
  app_package_name : String
deriving DecidableEq, Repr, Inhabited

/-- Client context sent by the AWS Mobile SDK (client.rs `ClientContext`).
Rust's `HashMap<String, String>` fields are modelled as association
lists. -/
structure ClientContext where
  client : ClientApplication
  custom : List (String × String)
  environment : List (String × String)
deriving DecidableEq, Repr, Inhabited

/-- Cognito identity information sent with the event (client.rs
`CognitoIdentity`). -/
structure CognitoIdentity where
  identity_id : String
  identity_pool_id : String
deriving DecidableEq, Repr, Inhabited

/-- The Lambda function execution context (client.rs `EventContext`). The
`deadline` is an `i64` in the source, modelled as `Int`. -/
structure EventContext where
  invoked_function_arn : String
  aws_request_id : String
  xray_trace_id : String
  deadline : Int
  client_context : Option ClientContext
  identity : Option CognitoIdentity
deriving DecidableEq, Repr

/-! ## Header codec (client.rs lines 21-58, 380-439) -/

/-- Enum of the headers returned by Lambda's `/next` API call (client.rs
`LambdaHeaders`). -/
inductive LambdaHeaders where
  | RequestId
  | FunctionArn
  | TraceId
  | Deadline
  | ClientContext
  | CognitoIdentity
deriving DecidableEq, Repr

/-- `LambdaHeaders::as_str` (client.rs lines 42-51). The `Display` impl
(lines 54-58) writes exactly this string. -/
def LambdaHeaders.as_str : LambdaHeaders → String
  | .RequestId => "Lambda-Runtime-Aws-Request-Id"
  | .FunctionArn => "Lambda-Runtime-Invoked-Function-Arn"
  | .TraceId => "Lambda-Runtime-Trace-Id"
  | .Deadline => "Lambda-Runtime-Deadline-Ms"
  | .ClientContext => "Lambda-Runtime-Client-Context"
  | .CognitoIdentity => "Lambda-Runtime-Cognito-Identity"

/-- ASCII-lowercase a character, as HTTP header-name comparison does. -/
def asciiLower (c : Char) : Char :=
  if 'A' ≤ c ∧ c ≤ 'Z' then Char.ofNat (c.toNat + 32) else c

/-- Case-insensitive equality of header names. Models the fact that hyper's
`HeaderMap` stores and compares header names case-insensitively. -/
def headerNameEq (a b : String) : Bool :=
  a.data.map asciiLower == b.data.map asciiLower

/-- A header mapping: hyper's `HeaderMap<HeaderValue>`, modelled as an
association list from header names to header byte-values (a `HeaderValue`
is a byte string, represented as a `String` whose characters are the
bytes). -/
abbrev HeaderMap := List (String × String)

/-- `HeaderMap::get`: first entry whose name matches case-insensitively. -/
def hget (hm : HeaderMap) (name : String) : Option String :=
  (hm.find? (fun p => headerNameEq p.1 name)).map (·.2)

/-- A byte is visible ASCII in the sense of `HeaderValue::to_str`: the http
crate accepts bytes `32..=126` and tab. -/
def visibleAscii (c : Char) : Bool :=
  (32 ≤ c.toNat && c.toNat < 127) || c.toNat = 9

/-- All characters of a header value are visible ASCII. -/
def visibleStr (v : String) : Bool := v.data.all visibleAscii

/-- `HeaderValue::to_str` as used with `?` in `get_event_context`: succeeds
with the value itself exactly when every byte is visible ASCII, otherwise
yields the converted `ApiError`. (The http crate is external; this models
its documented behaviour.) -/
def headerToStr (v : String) : Except ApiError String :=
  if visibleStr v then .ok v else .error ApiError.fromToStrError

/-- Digit accumulation for `parseI64`: consume decimal digits, failing on
any non-digit character. -/
def digitsVal : List Char → Nat → Option Nat
  | [], acc => some acc
  | c :: cs, acc =>
    if c.isDigit then digitsVal cs (acc * 10 + (c.toNat - 48)) else none

/-- Rust's `<i64 as FromStr>::from_str`, used by `value.to_str()?.parse()?`
at client.rs line 408 (the std library is external; this models its
documented behaviour): an optional `+`/`-` sign followed by one or more
base-10 digits, rejecting the empty string, a bare sign, any non-digit
character, and values outside `[-2^63, 2^63 - 1]`. -/
def parseI64 (s : String) : Option Int :=
  match s.data with
  | [] => none
  | c :: cs =>
    let neg : Bool := c = '-'
    let ds : List Char := if c = '-' ∨ c = '+' then cs else c :: cs
    if ds.isEmpty then none
    else
      match digitsVal ds 0 with
      | none => none
      | some n =>
        if neg then
          if n ≤ 2 ^ 63 then some (-(n : Int)) else none
        else
          if n < 2 ^ 63 then some ((n : Int)) else none

/-- The missing-header error built at client.rs lines 387, 395, 403, 411:
`ApiError::new(&format!("Missing ... header", ...))`. -/
def missingHeaderError (h : LambdaHeaders) : ApiError :=
  ApiError.new ("Missing " ++ h.as_str ++ " header")

/-- A JSON parser for the client-context header, standing for
`serde_json::from_str::<ClientContext>` (serde_json is an external crate):
the codec is parameterised over it, returning either the parsed value or
the serde error message. -/
def CCParser := String → Except String ClientContext

/-- A JSON parser for the cognito-identity header, standing for
`serde_json::from_str::<CognitoIdentity>`. -/
def CIParser := String → Except String CognitoIdentity

/-- The first `if let` block of `get_event_context` (client.rs lines
424-429): when the client-context header is present, parse its JSON and set
`ctx.client_context`; otherwise leave `ctx` unchanged. -/
def applyClientContext (pcc : CCParser) (headers : HeaderMap) (ctx : EventContext) :
    Except ApiError EventContext :=
  match hget headers (LambdaHeaders.as_str .ClientContext) with
  | none => .ok ctx
  | some v =>
    match headerToStr v with
    | .error e => .error e
    | .ok s =>
      match pcc s with
      | .error m => .error (ApiError.fromJsonError m)
      | .ok ccValue => .ok { ctx with client_context := some ccValue }

/-- The second `if let` block of `get_event_context` (client.rs lines
431-436): when the cognito-identity header is present, parse its JSON and
set `ctx.identity`; otherwise leave `ctx` unchanged. -/
def applyIdentity (pci : CIParser) (headers : HeaderMap) (ctx : EventContext) :
    Except ApiError EventContext :=
  match hget headers (LambdaHeaders.as_str .CognitoIdentity) with
  | none => .ok ctx
  | some v =>
    match headerToStr v with
    | .error e => .error e
    | .ok s =>
      match pci s with
      | .error m => .error (ApiError.fromJsonError m)
      | .ok ciValue => .ok { ctx with identity := some ciValue }

/-- `RuntimeClient::get_event_context` (client.rs lines 380-439): decode the
four required headers in order (request id, function arn, trace id,
deadline), then fill the two optional JSON-carrying fields when their
headers are present. -/
def get_event_context (pcc : CCParser) (pci : CIParser) (headers : HeaderMap) :
    Except ApiError EventContext :=
  match hget headers (LambdaHeaders.as_str .RequestId) with
  | none => .error (missingHeaderError .RequestId)
  | some v₁ =>
    match headerToStr v₁ with
    | .error e => .error e
    | .ok aws_request_id =>
      match hget headers (LambdaHeaders.as_str .FunctionArn) with
      | none => .error (missingHeaderError .FunctionArn)
      | some v₂ =>
        match headerToStr v₂ with
        | .error e => .error e
        | .ok invoked_function_arn =>
          match hget headers (LambdaHeaders.as_str .TraceId) with
          | none => .error (missingHeaderError .TraceId)
          | some v₃ =>
            match headerToStr v₃ with
            | .error e => .error e
            | .ok xray_trace_id =>
              match hget headers (LambdaHeaders.as_str .Deadline) with
              | none => .error (missingHeaderError .Deadline)
              | some v₄ =>
                match headerToStr v₄ with
                | .error e => .error e
                | .ok dstr =>
                  match parseI64 dstr with
                  | none => .error ApiError.fromParseIntError
                  | some deadline =>
                    let ctx : EventContext :=
                      { aws_request_id, invoked_function_arn, xray_trace_id, deadline,
                        client_context := none, identity := none }
                    match applyClientContext pcc headers ctx with
                    | .error e => .error e
                    | .ok ctx₁ => applyIdentity pci headers ctx₁

/-! ## HTTP model -/

/-- An HTTP response as seen by the client's response-handling closures:
status code, headers and the (fully buffered) body bytes. -/
structure HttpResponse where
  status : Nat
  headers : HeaderMap
  body : List Nat
deriving Repr

/-- An HTTP request as built by the `get_runtime_*_request` helpers. The
body is a byte string (characters standing for bytes). -/
structure HttpRequest where
  method : String
  uri : String
  headers : List (String × String)
  body : String
deriving DecidableEq, Repr

/-- `StatusCode::is_client_error` of the http crate: `400..=499`. -/
def isClientError (s : Nat) : Bool := 400 ≤ s && s < 500

/-- `StatusCode::is_server_error` of the http crate: `500..=599`. -/
def isServerError (s : Nat) : Bool := 500 ≤ s && s < 600

/-- `StatusCode::is_success` of the http crate: `200..=299`. -/
def isSuccess (s : Nat) : Bool := 200 ≤ s && s < 300

/-- Canonical reason phrases of the http crate's `StatusCode`, abbreviated
to the codes exercised in this development; every other code displays the
crate's unknown-status placeholder. Only the presence of the numeric code
in `statusDisplay` matters to the claims proved below. -/
def canonicalReason (s : Nat) : String :=
  if s = 200 then "OK"
  else if s = 202 then "Accepted"
  else if s = 400 then "Bad Request"
  else if s = 403 then "Forbidden"
  else if s = 404 then "Not Found"
  else if s = 413 then "Payload Too Large"
  else if s = 500 then "Internal Server Error"
  else if s = 502 then "Bad Gateway"
  else if s = 503 then "Service Unavailable"
  else "<unknown status code>"

/-- `Display` for `StatusCode`: the numeric code, a space, and the
canonical reason. This is the `resp.status()` interpolated into the error
messages of client.rs. -/
def statusDisplay (s : Nat) : String := Nat.repr s ++ " " ++ canonicalReason s

/-! ## Protocol client (client.rs lines 151-333) -/

/-- `RuntimeClient::next_event`, response-handling part (client.rs lines
166-197): given the poll response, classify 4xx as a recoverable error,
5xx as an unrecoverable error, and otherwise decode the headers into an
`EventContext` and pair it with the buffered body bytes. The URI
formatting and the hyper GET itself (lines 154-165) are transport plumbing
outside this model; the function below is the composition of the closures
applied to the response. -/
def next_event (pcc : CCParser) (pci : CIParser) (resp : HttpResponse) :
    Except ApiError (List Nat × EventContext) :=
  if isClientError resp.status then
    .error (ApiError.new ("Error " ++ statusDisplay resp.status ++ " when polling for events"))
  else if isServerError resp.status then
    .error ((ApiError.new "Server error when polling for new events").setUnrecoverable)
  else
    match get_event_context pcc pci resp.headers with
    | .error e => .error e
    | .ok ctx => .ok (resp.body, ctx)

/-- `RuntimeClient::event_response`, response-handling part (client.rs
lines 227-247): the `then` closure on the transport result. A non-success
status becomes `ApiError::new(&format!("Error ... while sending response",
resp.status()))`; a transport failure is converted via `From`; otherwise
`Ok(())`. -/
def event_response (result : Except String HttpResponse) : Except ApiError Unit :=
  match result with
  | .ok resp =>
    if !isSuccess resp.status then
      .error (ApiError.new ("Error " ++ statusDisplay resp.status ++ " while sending response"))
    else .ok ()
  | .error e => .error (ApiError.fromHyperError e)

/-! ### Error report serialization -/

/-- Modelled from the spec: `crate::error::ErrorResponse` (`error.rs` is not
under `src/`): the ErrorReport wire value of §3 — `error_message`,
`error_type`, optional `stack_trace`. -/
structure ErrorResponse where
  errorMessage : String
  errorType : String
  stackTrace : Option (List String)
deriving DecidableEq, Repr

/-- JSON string-character escaping. Modelled from the spec: serde_json is
an external crate; this covers the escapes relevant here (quote,
backslash, the common control characters). -/
def jsonEscapeChar (c : Char) : String :=
  if c = '"' then "\\\""
  else if c = '\\' then "\\\\"
  else if c = (Char.ofNat 10) then "\\n"
  else if c = (Char.ofNat 13) then "\\r"
  else if c = (Char.ofNat 9) then "\\t"
  else String.singleton c

/-- A JSON string literal for `s`. -/
def jsonString (s : String) : String :=
  "\"" ++ String.join (s.data.map jsonEscapeChar) ++ "\""

/-- `serde_json::to_vec(e)` for an `ErrorResponse`. Modelled from the spec
(§6): the shape is
`\x7b"errorMessage": string, "errorType": string, "stackTrace": [...]\x7d`
with the stack trace optional. -/
def serializeErrorReport (e : ErrorResponse) : String :=
  "\x7b\"errorMessage\":" ++ jsonString e.errorMessage ++
    ",\"errorType\":" ++ jsonString e.errorType ++
    (match e.stackTrace with
     | none => ""
     | some st => ",\"stackTrace\":[" ++ String.intercalate "," (st.map jsonString) ++ "]") ++
    "\x7d"

/-- Constant from client.rs line 16. -/
def RUNTIME_API_VERSION : String := "2018-06-01"

/-- Constant from client.rs line 17. -/
def API_CONTENT_TYPE : String := "application/json"

/-- Constant from client.rs line 18. -/
def API_ERROR_CONTENT_TYPE : String := "application/vnd.aws.lambda.error+json"

/-- Constant from client.rs line 19. -/
def RUNTIME_ERROR_HEADER : String := "Lambda-Runtime-Function-Error-Type"

/-- `RuntimeClient::get_runtime_post_request` (client.rs lines 346-353):
POST with content type `application/json` and the given body bytes. -/
def get_runtime_post_request (uri : String) (body : String) : HttpRequest :=
  { method := "POST", uri, headers := [("content-type", API_CONTENT_TYPE)], body }

/-- `RuntimeClient::get_runtime_error_request` (client.rs lines 355-367):
POST with the Lambda error content type, the fixed
`Lambda-Runtime-Function-Error-Type: RuntimeError` header, and the
serialized `ErrorResponse` as body. -/
def get_runtime_error_request (uri : String) (e : ErrorResponse) : HttpRequest :=
  { method := "POST", uri,
    headers := [("content-type", API_ERROR_CONTENT_TYPE), (RUNTIME_ERROR_HEADER, "RuntimeError")],
    body := serializeErrorReport e }

/-- The URI of `event_error` (client.rs lines 263-267). -/
def event_error_uri (endpoint request_id : String) : String :=
  "http://" ++ endpoint ++ "/" ++ RUNTIME_API_VERSION ++ "/runtime/invocation/" ++
    request_id ++ "/error"

/-- The request built by `RuntimeClient::event_error` at client.rs line 273,
before the transport is invoked: it depends only on the endpoint, the
request id and the reportable error's `to_response()` value — never on the
HTTP response. -/
def event_error_request (endpoint request_id : String) (rep : ErrorResponse) : HttpRequest :=
  get_runtime_error_request (event_error_uri endpoint request_id) rep

/-- `RuntimeClient::event_error`, response-handling part (client.rs lines
275-295): the match on the transport result. A non-success status becomes
`ApiError::new(&format!("Error ... while sending response",
resp.status()))` (note: the source reuses the `event_response` wording);
a transport failure is converted via `From`; otherwise `Ok(())`. -/
def event_error (result : Except String HttpResponse) : Except ApiError Unit :=
  match result with
  | .ok resp =>
    if !isSuccess resp.status then
      .error (ApiError.new ("Error " ++ statusDisplay resp.status ++ " while sending response"))
    else .ok ()
  | .error e => .error (ApiError.fromHyperError e)

/-- Outcome of a call that may terminate the process instead of
returning. -/
inductive InitOutcome where
  | returned
  | terminated (msg : String)
deriving DecidableEq, Repr

/-- `RuntimeClient::fail_init`, transport-result handling (client.rs lines
316-326): a transport failure panics (process termination) inside
`map_err`; a delivered response — whatever its status, which is never
inspected — is logged and the call returns normally. -/
def fail_init (sendResult : Except String HttpResponse) : InitOutcome :=
  match sendResult with
  | .error e => .terminated ("Error while sending init failed message: " ++ e)
  | .ok _ => .returned

/-! ## String containment

Small executable machinery used to state "the message includes the numeric
status code" and similar substring properties. -/

/-- Does `s` start with the pattern `p`? -/
def matchesAt : List Char → List Char → Bool
  | [], _ => true
  | _ :: _, [] => false
  | p :: ps, c :: cs => p == c && matchesAt ps cs

/-- Does `s` contain the pattern `p` as a contiguous run? -/
def containsList : List Char → List Char → Bool
  | [], pat => matchesAt pat []
  | c :: t, pat => matchesAt pat (c :: t) || containsList t pat

/-- Does the string `s` contain `pat` as a contiguous substring? -/
def strContains (s pat : String) : Bool := containsList s.data pat.data

/-! ## Predicates used in claim statements -/

/-- The header `h` is present in `hm` with a value that
`HeaderValue::to_str` accepts. -/
def presentValid (hm : HeaderMap) (h : LambdaHeaders) : Prop :=
  ∃ v, hget hm h.as_str = some v ∧ visibleStr v = true

/-- The deadline header is present with a to_str-accepted value that parses
as an `i64`. -/
def presentValidDeadline (hm : HeaderMap) : Prop :=
  ∃ v n, hget hm (LambdaHeaders.as_str .Deadline) = some v ∧ visibleStr v = true ∧
    parseI64 v = some n

/-- Is `e` one of the four missing-required-header errors that
`get_event_context` can produce (client.rs lines 387, 395, 403, 411)? -/
def isMissingHeaderError (e : ApiError) : Bool :=
  decide (e = missingHeaderError .RequestId) || decide (e = missingHeaderError .FunctionArn) ||
  decide (e = missingHeaderError .TraceId) || decide (e = missingHeaderError .Deadline)

/-! ## Sample values used by the witnesses -/

/-- A JSON parser that rejects everything: used where the optional headers
are absent, so the parser is never consulted. -/
def pccFail : CCParser := fun _ => .error "expected value"

/-- A JSON parser that rejects everything (cognito side). -/
def pciFail : CIParser := fun _ => .error "expected value"

/-- A concrete header mapping carrying the four required headers (names in
the lowercase form hyper delivers them in). -/
def sampleHeaders : HeaderMap :=
  [("lambda-runtime-aws-request-id", "req-1"),
   ("lambda-runtime-invoked-function-arn", "arn:aws:lambda:us-east-1:123456789012:function:f"),
   ("lambda-runtime-trace-id", "trace-1"),
   ("lambda-runtime-deadline-ms", "1542409706888")]

/-- The context decoded from `sampleHeaders`. -/
def sampleCtx : EventContext :=
  { invoked_function_arn := "arn:aws:lambda:us-east-1:123456789012:function:f",
    aws_request_id := "req-1",
    xray_trace_id := "trace-1",
    deadline := 1542409706888,
    client_context := none,
    identity := none }

/-- A concrete reportable-error value for the witnesses. -/
def sampleReport : ErrorResponse :=
  { errorMessage := "oops", errorType := "RuntimeError", stackTrace := none }

/-- `sampleHeaders` without the request-id header. -/
def headersNoReqId : HeaderMap :=
  [("lambda-runtime-invoked-function-arn", "arn:aws:lambda:us-east-1:123456789012:function:f"),
   ("lambda-runtime-trace-id", "trace-1"),
   ("lambda-runtime-deadline-ms", "1542409706888")]

/-- `sampleHeaders` without the function-arn header. -/
def headersNoArn : HeaderMap :=
  [("lambda-runtime-aws-request-id", "req-1"),
   ("lambda-runtime-trace-id", "trace-1"),
   ("lambda-runtime-deadline-ms", "1542409706888")]

/-- `sampleHeaders` without the trace-id header. -/
def headersNoTrace : HeaderMap :=
  [("lambda-runtime-aws-request-id", "req-1"),
   ("lambda-runtime-invoked-function-arn", "arn:aws:lambda:us-east-1:123456789012:function:f"),
   ("lambda-runtime-deadline-ms", "1542409706888")]

/-- `sampleHeaders` without the deadline header. -/
def headersNoDeadline : HeaderMap :=
  [("lambda-runtime-aws-request-id", "req-1"),
   ("lambda-runtime-invoked-function-arn", "arn:aws:lambda:us-east-1:123456789012:function:f"),
   ("lambda-runtime-trace-id", "trace-1")]

/-- A concrete client application, for the C3 witness. -/
def sampleApp : ClientApplication :=
  { installation_id := "inst-1", app_title := "app", app_version_name := "1.0",
    app_version_code := "42", app_package_name := "com.example.app" }

/-- A concrete client context, for the C3 witness. -/
def sampleCC : ClientContext := { client := sampleApp, custom := [], environment := [] }

/-- A concrete cognito identity, for the C3 witness. -/
def sampleCI : CognitoIdentity := { identity_id := "id-1", identity_pool_id := "pool-1" }

/-- A client-context parser that accepts exactly the document `cc-json`. -/
def pccSample : CCParser := fun s => if s = "cc-json" then .ok sampleCC else .error "expected value"

/-- A cognito-identity parser that accepts exactly the document `ci-json`. -/
def pciSample : CIParser := fun s => if s = "ci-json" then .ok sampleCI else .error "expected value"

/-- `sampleHeaders` extended with the two optional JSON-carrying headers. -/
def fullHeaders : HeaderMap :=
  sampleHeaders ++
    [("lambda-runtime-client-context", "cc-json"),
     ("lambda-runtime-cognito-identity", "ci-json")]

/-- A header mapping whose request-id value is an opaque byte (200) that
`HeaderValue::to_str` rejects, and which is missing the other three
required headers. -/
def badValueHeaders : HeaderMap :=
  [("lambda-runtime-aws-request-id", String.singleton (Char.ofNat 200))]

theorem matchesAt_self_append (p r : List Char) : matchesAt p (p ++ r) = true := by
  induction p with
  | nil => rfl
  | cons c cs ih => simp [matchesAt, ih]

theorem containsList_of_matchesAt (s pat : List Char) (h : matchesAt pat s = true) :
    containsList s pat = true := by
  cases s with
  | nil => simpa [containsList] using h
  | cons c t => simp [containsList, h]

theorem containsList_append_left (a : List Char) {s pat : List Char}
    (h : containsList s pat = true) : containsList (a ++ s) pat = true := by
  induction a with
  | nil => simpa using h
  | cons c t ih => simp [containsList, ih]

theorem containsList_mid (a p b : List Char) : containsList (a ++ (p ++ b)) p = true :=
  containsList_append_left a (containsList_of_matchesAt _ _ (matchesAt_self_append p b))

/-! ## Helper facts about status classes -/

theorem not_clientError_of_serverError {s : Nat} (h : isServerError s = true) :
    isClientError s = false := by
  rw [Bool.eq_false_iff]
  intro hc
  simp only [isClientError, isServerError, Bool.and_eq_true, decide_eq_true_eq] at h hc
  omega

theorem not_clientError_of_success {s : Nat} (h : isSuccess s = true) :
    isClientError s = false := by
  rw [Bool.eq_false_iff]
  intro hc
  simp only [isClientError, isSuccess, Bool.and_eq_true, decide_eq_true_eq] at h hc
  omega

theorem not_serverError_of_success {s : Nat} (h : isSuccess s = true) :
    isServerError s = false := by
  rw [Bool.eq_false_iff]
  intro hc
  simp only [isServerError, isSuccess, Bool.and_eq_true, decide_eq_true_eq] at h hc
  omega

/-! ## Claims -/

/-- C1: for every poll response, a 4xx status makes `next_event` return an
error that is not flagged unrecoverable, and a 5xx status makes it return
an error flagged unrecoverable (client.rs lines 166-185). -/
theorem next_event_poll_status_classification (pcc : CCParser) (pci : CIParser)
    (resp : HttpResponse) :
    (isClientError resp.status = true →
      ∃ e, next_event pcc pci resp = .error e ∧ e.unrecoverable = false) ∧
    (isServerError resp.status = true →
      ∃ e, next_event pcc pci resp = .error e ∧ e.unrecoverable = true) := by
  constructor
  · intro h
    exact ⟨ApiError.new ("Error " ++ statusDisplay resp.status ++ " when polling for events"),
      by simp [next_event, h], rfl⟩
  · intro h
    exact ⟨(ApiError.new "Server error when polling for new events").setUnrecoverable,
      by simp [next_event, h, not_clientError_of_serverError h], rfl⟩

/-- C1 witness: a 404 poll response yields a recoverable error and a 500
poll response an unrecoverable one. -/
theorem next_event_poll_status_classification_witness :
    (∃ e, next_event pccFail pciFail ⟨404, [], []⟩ = .error e ∧ e.unrecoverable = false) ∧
    (∃ e, next_event pccFail pciFail ⟨500, [], []⟩ = .error e ∧ e.unrecoverable = true) :=
  ⟨(next_event_poll_status_classification pccFail pciFail ⟨404, [], []⟩).1 (by decide),
   (next_event_poll_status_classification pccFail pciFail ⟨500, [], []⟩).2 (by decide)⟩

/-- C4: a poll response with a successful status whose headers decode
returns the decoded context paired with the body bytes unchanged
(client.rs lines 186-197); the witness includes the empty-body case. -/
theorem next_event_success_body_roundtrip (pcc : CCParser) (pci : CIParser)
    (resp : HttpResponse) (ctx : EventContext)
    (hs : isSuccess resp.status = true)
    (hctx : get_event_context pcc pci resp.headers = .ok ctx) :
    next_event pcc pci resp = .ok (resp.body, ctx) := by
  simp [next_event, not_clientError_of_success hs, not_serverError_of_success hs, hctx]

/-- C4 witness: a 200 response carrying the four required headers and an
empty body round-trips the (empty) body and decodes the context. -/
theorem next_event_success_body_roundtrip_witness :
    isSuccess 200 = true ∧
    get_event_context pccFail pciFail sampleHeaders = .ok sampleCtx ∧
    next_event pccFail pciFail ⟨200, sampleHeaders, []⟩ = .ok ([], sampleCtx) :=
  ⟨by decide, by rfl,
   next_event_success_body_roundtrip pccFail pciFail ⟨200, sampleHeaders, []⟩ sampleCtx
     (by decide) (by rfl)⟩

/-- C5: `fail_init` returns normally exactly when the transport send
succeeds, and on a transport failure it terminates the process instead of
returning control (client.rs lines 316-326). -/
theorem fail_init_returns_iff_send_succeeds (r : Except String HttpResponse) :
    (fail_init r = InitOutcome.returned ↔ ∃ resp, r = .ok resp) ∧
    (∀ e, ∃ m, fail_init (.error e) = InitOutcome.terminated m) := by
  constructor
  · constructor
    · intro h
      cases r with
      | ok resp => exact ⟨resp, rfl⟩
      | error e => simp [fail_init] at h
    · rintro ⟨resp, rfl⟩
      rfl
  · intro e
    exact ⟨_, rfl⟩

/-- C5 witness: a delivered response returns normally; a refused connection
terminates. -/
theorem fail_init_returns_iff_send_succeeds_witness :
    fail_init (.ok ⟨202, [], []⟩) = InitOutcome.returned ∧
    fail_init (.error "connection refused") =
      InitOutcome.terminated "Error while sending init failed message: connection refused" :=
  ⟨(fail_init_returns_iff_send_succeeds (.ok ⟨202, [], []⟩)).1.mpr ⟨_, rfl⟩, by decide⟩

/-- C6: `event_response` returns success for every 2xx status, and for
every non-2xx status returns an error that is not flagged unrecoverable
and whose message contains the numeric status code (client.rs lines
227-247). The non-2xx error is one uniform expression in the status, so
4xx and 5xx are not distinguished. -/
theorem event_response_status_handling (resp : HttpResponse) :
    (isSuccess resp.status = true → event_response (.ok resp) = .ok ()) ∧
    (isSuccess resp.status = false →
      event_response (.ok resp) =
        .error (ApiError.new ("Error " ++ statusDisplay resp.status ++ " while sending response")) ∧
      (ApiError.new
        ("Error " ++ statusDisplay resp.status ++ " while sending response")).unrecoverable = false ∧
      strContains ("Error " ++ statusDisplay resp.status ++ " while sending response")
        (Nat.repr resp.status) = true) := by
  constructor
  · intro h
    simp [event_response, h]
  · intro h
    refine ⟨by simp [event_response, h], rfl, ?_⟩
    simp only [strContains, statusDisplay, String.data_append, List.append_assoc]
    exact containsList_mid _ _ _

/-- C6 witness: a 202 response is success; a 413 response is a recoverable
error whose message contains "413". -/
theorem event_response_status_handling_witness :
    event_response (.ok ⟨202, [], []⟩) = .ok () ∧
    event_response (.ok ⟨413, [], []⟩) =
      .error (ApiError.new ("Error " ++ statusDisplay 413 ++ " while sending response")) ∧
    (ApiError.new ("Error " ++ statusDisplay 413 ++ " while sending response")).unrecoverable = false ∧
    strContains ("Error " ++ statusDisplay 413 ++ " while sending response") (Nat.repr 413) = true :=
  ⟨(event_response_status_handling ⟨202, [], []⟩).1 (by decide),
   (event_response_status_handling ⟨413, [], []⟩).2 (by decide)⟩

/-- C7: `event_error` builds its request — whose body is the serialized
ErrorReport, containing the reportable error's message and type — once,
before the transport is invoked, so the body never depends on the response
status (client.rs lines 273, 355-367); and any non-2xx response yields an
error that is not flagged unrecoverable, with no panic (lines 275-295). -/
theorem event_error_serializes_report_once (endpoint request_id : String)
    (rep : ErrorResponse) (resp : HttpResponse) (hs : isSuccess resp.status = false) :
    (event_error_request endpoint request_id rep).body = serializeErrorReport rep ∧
    strContains (event_error_request endpoint request_id rep).body
      (jsonString rep.errorMessage) = true ∧
    strContains (event_error_request endpoint request_id rep).body
      (jsonString rep.errorType) = true ∧
    ∃ e, event_error (.ok resp) = .error e ∧ e.unrecoverable = false := by
  refine ⟨rfl, ?_, ?_,
    ⟨ApiError.new ("Error " ++ statusDisplay resp.status ++ " while sending response"),
     by simp [event_error, hs], rfl⟩⟩
  · simp only [event_error_request, get_runtime_error_request, serializeErrorReport,
      strContains, String.data_append, List.append_assoc]
    apply containsList_append_left
    exact containsList_of_matchesAt _ _ (matchesAt_self_append _ _)
  · simp only [event_error_request, get_runtime_error_request, serializeErrorReport,
      strContains, String.data_append, List.append_assoc]
    apply containsList_append_left
    apply containsList_append_left
    apply containsList_append_left
    exact containsList_of_matchesAt _ _ (matchesAt_self_append _ _)

/-- C7 witness: the concrete report's message and type are serialized into
the request body, and a 400 response yields a recoverable error. -/
theorem event_error_serializes_report_once_witness :
    isSuccess 400 = false ∧
    ((event_error_request "127.0.0.1:9001" "req-1" sampleReport).body =
        serializeErrorReport sampleReport ∧
      strContains (event_error_request "127.0.0.1:9001" "req-1" sampleReport).body
        (jsonString sampleReport.errorMessage) = true ∧
      strContains (event_error_request "127.0.0.1:9001" "req-1" sampleReport).body
        (jsonString sampleReport.errorType) = true ∧
      ∃ e, event_error (.ok ⟨400, [], []⟩) = .error e ∧ e.unrecoverable = false) :=
  ⟨by decide,
   event_error_serializes_report_once "127.0.0.1:9001" "req-1" sampleReport ⟨400, [], []⟩
     (by decide)⟩

/-- C8 counterexample: a 500 poll response produces the fixed error message
"Server error when polling for new events" (client.rs line 182), which
does not contain the numeric status code — refuting the claim that every
non-success status from the three non-init calls carries the status code
in the error message. -/
theorem protocol_error_message_lacks_status_code :
    next_event pccFail pciFail ⟨500, [], []⟩ =
      .error ((ApiError.new "Server error when polling for new events").setUnrecoverable) ∧
    strContains "Server error when polling for new events" (Nat.repr 500) = false :=
  ⟨rfl, by decide⟩

/-- C8 amended: every non-success status from the three non-init calls
yields an error whose message identifies the operation ("polling for" on
the poll call, "while sending response" on both posting calls — the source
reuses that wording for `event_error`), and the message carries the
numeric status code except for a 5xx on poll, where it is the fixed string
"Server error when polling for new events" (flagged unrecoverable
instead). -/
theorem protocol_error_messages (pcc : CCParser) (pci : CIParser) (resp : HttpResponse) :
    (isClientError resp.status = true →
      ∃ e, next_event pcc pci resp = .error e ∧
        strContains e.msg (Nat.repr resp.status) = true ∧
        strContains e.msg "polling for" = true) ∧
    (isServerError resp.status = true →
      next_event pcc pci resp =
        .error ((ApiError.new "Server error when polling for new events").setUnrecoverable) ∧
      strContains "Server error when polling for new events" "polling for" = true) ∧
    (isSuccess resp.status = false →
      ∃ e, event_response (.ok resp) = .error e ∧
        strContains e.msg (Nat.repr resp.status) = true ∧
        strContains e.msg "while sending response" = true) ∧
    (isSuccess resp.status = false →
      ∃ e, event_error (.ok resp) = .error e ∧
        strContains e.msg (Nat.repr resp.status) = true ∧
        strContains e.msg "while sending response" = true) := by
  refine ⟨?_, ?_, ?_, ?_⟩
  · intro h
    refine ⟨ApiError.new ("Error " ++ statusDisplay resp.status ++ " when polling for events"),
      by simp [next_event, h], ?_, ?_⟩
    · simp only [ApiError.new, strContains, statusDisplay, String.data_append, List.append_assoc]
      exact containsList_mid _ _ _
    · simp only [ApiError.new, strContains, statusDisplay, String.data_append, List.append_assoc]
      apply containsList_append_left
      apply containsList_append_left
      apply containsList_append_left
      apply containsList_append_left
      decide
  · intro h
    exact ⟨by simp [next_event, h, not_clientError_of_serverError h], by decide⟩
  · intro h
    refine ⟨ApiError.new ("Error " ++ statusDisplay resp.status ++ " while sending response"),
      by simp [event_response, h], ?_, ?_⟩
    · simp only [ApiError.new, strContains, statusDisplay, String.data_append, List.append_assoc]
      exact containsList_mid _ _ _
    · simp only [ApiError.new, strContains, statusDisplay, String.data_append, List.append_assoc]
      apply containsList_append_left
      apply containsList_append_left
      apply containsList_append_left
      apply containsList_append_left
      decide
  · intro h
    refine ⟨ApiError.new ("Error " ++ statusDisplay resp.status ++ " while sending response"),
      by simp [event_error, h], ?_, ?_⟩
    · simp only [ApiError.new, strContains, statusDisplay, String.data_append, List.append_assoc]
      exact containsList_mid _ _ _
    · simp only [ApiError.new, strContains, statusDisplay, String.data_append, List.append_assoc]
      apply containsList_append_left
      apply containsList_append_left
      apply containsList_append_left
      apply containsList_append_left
      decide

/-- C8 witness: the amended statement at the concrete statuses 404 (poll,
client error), 500 (poll, server error), 413 (post_response) and 400
(post_error). -/
theorem protocol_error_messages_witness :
    (∃ e, next_event pccFail pciFail ⟨404, [], []⟩ = .error e ∧
      strContains e.msg (Nat.repr 404) = true ∧
      strContains e.msg "polling for" = true) ∧
    (next_event pccFail pciFail ⟨500, [], []⟩ =
      .error ((ApiError.new "Server error when polling for new events").setUnrecoverable) ∧
      strContains "Server error when polling for new events" "polling for" = true) ∧
    (∃ e, event_response (.ok ⟨413, [], []⟩) = .error e ∧
      strContains e.msg (Nat.repr 413) = true ∧
      strContains e.msg "while sending response" = true) ∧
    (∃ e, event_error (.ok ⟨400, [], []⟩) = .error e ∧
      strContains e.msg (Nat.repr 400) = true ∧
      strContains e.msg "while sending response" = true) :=
  ⟨(protocol_error_messages pccFail pciFail ⟨404, [], []⟩).1 (by decide),
   (protocol_error_messages pccFail pciFail ⟨500, [], []⟩).2.1 (by decide),
   (protocol_error_messages pccFail pciFail ⟨413, [], []⟩).2.2.1 (by decide),
   (protocol_error_messages pccFail pciFail ⟨400, [], []⟩).2.2.2 (by decide)⟩

theorem headerToStr_ok {v : String} (h : visibleStr v = true) : headerToStr v = .ok v := by
  simp [headerToStr, h]

theorem fromJsonError_ne_missing (m : String) (h : LambdaHeaders) :
    ApiError.fromJsonError m ≠ missingHeaderError h := by
  intro he
  have h1 : (ApiError.fromJsonError m).msg.data.head? = some 'e' := rfl
  rw [he] at h1
  have h2 : (missingHeaderError h).msg.data.head? = some 'M' := rfl
  rw [h2] at h1
  simp at h1

theorem isMissingHeaderError_fromJsonError (m : String) :
    isMissingHeaderError (ApiError.fromJsonError m) = false := by
  simp only [isMissingHeaderError, Bool.or_eq_false_iff, decide_eq_false_iff_not]
  exact ⟨⟨⟨fromJsonError_ne_missing m _, fromJsonError_ne_missing m _⟩,
    fromJsonError_ne_missing m _⟩, fromJsonError_ne_missing m _⟩

/-- C2: for every header mapping in which exactly one of the four required
headers is absent and the others carry valid values, decode fails with the
missing-header error naming that header — independently for each of the
four (client.rs lines 383-413). -/
theorem decode_missing_one_required_header (pcc : CCParser) (pci : CIParser) (hm : HeaderMap) :
    (hget hm (LambdaHeaders.as_str .RequestId) = none →
      presentValid hm .FunctionArn → presentValid hm .TraceId → presentValidDeadline hm →
      get_event_context pcc pci hm = .error (missingHeaderError .RequestId)) ∧
    (presentValid hm .RequestId →
      hget hm (LambdaHeaders.as_str .FunctionArn) = none →
      presentValid hm .TraceId → presentValidDeadline hm →
      get_event_context pcc pci hm = .error (missingHeaderError .FunctionArn)) ∧
    (presentValid hm .RequestId → presentValid hm .FunctionArn →
      hget hm (LambdaHeaders.as_str .TraceId) = none → presentValidDeadline hm →
      get_event_context pcc pci hm = .error (missingHeaderError .TraceId)) ∧
    (presentValid hm .RequestId → presentValid hm .FunctionArn → presentValid hm .TraceId →
      hget hm (LambdaHeaders.as_str .Deadline) = none →
      get_event_context pcc pci hm = .error (missingHeaderError .Deadline)) := by
  refine ⟨?_, ?_, ?_, ?_⟩
  · intro h0 _ _ _
    simp [get_event_context, h0]
  · rintro ⟨v₁, h₁, hv₁⟩ h0 _ _
    simp [get_event_context, h₁, headerToStr_ok hv₁, h0]
  · rintro ⟨v₁, h₁, hv₁⟩ ⟨v₂, h₂, hv₂⟩ h0 _
    simp [get_event_context, h₁, headerToStr_ok hv₁, h₂, headerToStr_ok hv₂, h0]
  · rintro ⟨v₁, h₁, hv₁⟩ ⟨v₂, h₂, hv₂⟩ ⟨v₃, h₃, hv₃⟩ h0
    simp [get_event_context, h₁, headerToStr_ok hv₁, h₂, headerToStr_ok hv₂, h₃,
      headerToStr_ok hv₃, h0]

/-- C2 witness: dropping each one of the four required headers from a valid
mapping produces the matching missing-header error. -/
theorem decode_missing_one_required_header_witness :
    get_event_context pccFail pciFail headersNoReqId = .error (missingHeaderError .RequestId) ∧
    get_event_context pccFail pciFail headersNoArn = .error (missingHeaderError .FunctionArn) ∧
    get_event_context pccFail pciFail headersNoTrace = .error (missingHeaderError .TraceId) ∧
    get_event_context pccFail pciFail headersNoDeadline = .error (missingHeaderError .Deadline) :=
  ⟨(decode_missing_one_required_header pccFail pciFail headersNoReqId).1
      (by rfl) ⟨_, rfl, by decide⟩ ⟨_, rfl, by decide⟩ ⟨_, _, rfl, by decide, by rfl⟩,
   (decode_missing_one_required_header pccFail pciFail headersNoArn).2.1
      ⟨_, rfl, by decide⟩ (by rfl) ⟨_, rfl, by decide⟩ ⟨_, _, rfl, by decide, by rfl⟩,
   (decode_missing_one_required_header pccFail pciFail headersNoTrace).2.2.1
      ⟨_, rfl, by decide⟩ ⟨_, rfl, by decide⟩ (by rfl) ⟨_, _, rfl, by decide, by rfl⟩,
   (decode_missing_one_required_header pccFail pciFail headersNoDeadline).2.2.2
      ⟨_, rfl, by decide⟩ ⟨_, rfl, by decide⟩ ⟨_, rfl, by decide⟩ (by rfl)⟩

/-- C3: when the four required headers are present with valid values,
decode succeeds with fields equal to the header values, and each optional
field is populated exactly when its header is present and its JSON parses
(absent headers leave the field empty) — client.rs lines 383-439. -/
theorem decode_all_headers_present (pcc : CCParser) (pci : CIParser) (hm : HeaderMap)
    (rid arn trace dl : String) (n : Int)
    (ccRes : Option ClientContext) (ciRes : Option CognitoIdentity)
    (h₁ : hget hm (LambdaHeaders.as_str .RequestId) = some rid) (hv₁ : visibleStr rid = true)
    (h₂ : hget hm (LambdaHeaders.as_str .FunctionArn) = some arn) (hv₂ : visibleStr arn = true)
    (h₃ : hget hm (LambdaHeaders.as_str .TraceId) = some trace) (hv₃ : visibleStr trace = true)
    (h₄ : hget hm (LambdaHeaders.as_str .Deadline) = some dl) (hv₄ : visibleStr dl = true)
    (hn : parseI64 dl = some n)
    (hcc : (hget hm (LambdaHeaders.as_str .ClientContext) = none ∧ ccRes = none) ∨
      (∃ v c, hget hm (LambdaHeaders.as_str .ClientContext) = some v ∧ visibleStr v = true ∧
        pcc v = .ok c ∧ ccRes = some c))
    (hci : (hget hm (LambdaHeaders.as_str .CognitoIdentity) = none ∧ ciRes = none) ∨
      (∃ v c, hget hm (LambdaHeaders.as_str .CognitoIdentity) = some v ∧ visibleStr v = true ∧
        pci v = .ok c ∧ ciRes = some c)) :
    get_event_context pcc pci hm =
      .ok { invoked_function_arn := arn, aws_request_id := rid, xray_trace_id := trace,
            deadline := n, client_context := ccRes, identity := ciRes } := by
  rcases hcc with ⟨hc, rfl⟩ | ⟨v, c, hc, hvv, hp, rfl⟩ <;>
    rcases hci with ⟨hi, rfl⟩ | ⟨w, d, hi, hvw, hq, rfl⟩ <;>
    simp [get_event_context, applyClientContext, applyIdentity,
      h₁, headerToStr_ok hv₁, h₂, headerToStr_ok hv₂, h₃, headerToStr_ok hv₃,
      h₄, headerToStr_ok hv₄, hn, hc, hi, *] <;>
    simp_all [headerToStr_ok]

/-- C3 witness: all six headers present with valid values; both optional
fields populated. -/
theorem decode_all_headers_present_witness :
    get_event_context pccSample pciSample fullHeaders =
      .ok { invoked_function_arn := "arn:aws:lambda:us-east-1:123456789012:function:f",
            aws_request_id := "req-1", xray_trace_id := "trace-1",
            deadline := 1542409706888,
            client_context := some sampleCC, identity := some sampleCI } :=
  decode_all_headers_present pccSample pciSample fullHeaders
    "req-1" "arn:aws:lambda:us-east-1:123456789012:function:f" "trace-1" "1542409706888"
    1542409706888 (some sampleCC) (some sampleCI)
    (by rfl) (by decide) (by rfl) (by decide) (by rfl) (by decide) (by rfl) (by decide) (by rfl)
    (Or.inr ⟨"cc-json", sampleCC, by rfl, by decide, by rfl, rfl⟩)
    (Or.inr ⟨"ci-json", sampleCI, by rfl, by decide, by rfl, rfl⟩)

/-- C9: with the required headers present and valid, a non-integer deadline
value, or a malformed JSON document in the client-context or
cognito-identity header, makes decode fail with an error that is not a
missing-header error; no partially-populated context is returned
(client.rs lines 407-439). -/
theorem decode_invalid_value_failures (pcc : CCParser) (pci : CIParser) (hm : HeaderMap)
    (rid arn trace : String)
    (h₁ : hget hm (LambdaHeaders.as_str .RequestId) = some rid) (hv₁ : visibleStr rid = true)
    (h₂ : hget hm (LambdaHeaders.as_str .FunctionArn) = some arn) (hv₂ : visibleStr arn = true)
    (h₃ : hget hm (LambdaHeaders.as_str .TraceId) = some trace) (hv₃ : visibleStr trace = true) :
    (∀ v, hget hm (LambdaHeaders.as_str .Deadline) = some v → visibleStr v = true →
      parseI64 v = none →
      get_event_context pcc pci hm = .error ApiError.fromParseIntError ∧
      isMissingHeaderError ApiError.fromParseIntError = false) ∧
    (∀ dl n v m, hget hm (LambdaHeaders.as_str .Deadline) = some dl → visibleStr dl = true →
      parseI64 dl = some n →
      hget hm (LambdaHeaders.as_str .ClientContext) = some v → visibleStr v = true →
      pcc v = .error m →
      get_event_context pcc pci hm = .error (ApiError.fromJsonError m) ∧
      isMissingHeaderError (ApiError.fromJsonError m) = false) ∧
    (∀ dl n w m, hget hm (LambdaHeaders.as_str .Deadline) = some dl → visibleStr dl = true →
      parseI64 dl = some n →
      (hget hm (LambdaHeaders.as_str .ClientContext) = none ∨
        (∃ v c, hget hm (LambdaHeaders.as_str .ClientContext) = some v ∧ visibleStr v = true ∧
          pcc v = .ok c)) →
      hget hm (LambdaHeaders.as_str .CognitoIdentity) = some w → visibleStr w = true →
      pci w = .error m →
      get_event_context pcc pci hm = .error (ApiError.fromJsonError m) ∧
      isMissingHeaderError (ApiError.fromJsonError m) = false) := by
  refine ⟨?_, ?_, ?_⟩
  · intro v h4 hv4 hp
    refine ⟨?_, by decide⟩
    simp [get_event_context, h₁, headerToStr_ok hv₁, h₂, headerToStr_ok hv₂, h₃,
      headerToStr_ok hv₃, h4, headerToStr_ok hv4, hp]
  · intro dl n v m h4 hv4 hn hc hvv hp
    refine ⟨?_, isMissingHeaderError_fromJsonError m⟩
    simp [get_event_context, applyClientContext, h₁, headerToStr_ok hv₁, h₂,
      headerToStr_ok hv₂, h₃, headerToStr_ok hv₃, h4, headerToStr_ok hv4, hn, hc,
      headerToStr_ok hvv, hp]
  · intro dl n w m h4 hv4 hn hcc hi hvw hq
    refine ⟨?_, isMissingHeaderError_fromJsonError m⟩
    rcases hcc with hc | ⟨v, c, hc, hvv, hp⟩
    · simp [get_event_context, applyClientContext, applyIdentity, h₁, headerToStr_ok hv₁,
        h₂, headerToStr_ok hv₂, h₃, headerToStr_ok hv₃, h4, headerToStr_ok hv4, hn, hc, hi,
        headerToStr_ok hvw, hq]
    · simp [get_event_context, applyClientContext, applyIdentity, h₁, headerToStr_ok hv₁,
        h₂, headerToStr_ok hv₂, h₃, headerToStr_ok hv₃, h4, headerToStr_ok hv4, hn, hc,
        headerToStr_ok hvv, hp, hi, headerToStr_ok hvw, hq]

/-- C9 witness: a non-numeric deadline, a malformed client-context
document, and a malformed cognito-identity document — the latter both with
the client-context header absent and with a valid, parseable
client-context alongside — each make decode fail with a non-missing-header
error. -/
theorem decode_invalid_value_failures_witness :
    (get_event_context pccFail pciFail
        (headersNoDeadline ++ [("lambda-runtime-deadline-ms", "soon")]) =
      .error ApiError.fromParseIntError ∧
      isMissingHeaderError ApiError.fromParseIntError = false) ∧
    (get_event_context pccFail pciFail
        (sampleHeaders ++ [("lambda-runtime-client-context", "not json")]) =
      .error (ApiError.fromJsonError "expected value") ∧
      isMissingHeaderError (ApiError.fromJsonError "expected value") = false) ∧
    (get_event_context pccFail pciFail
        (sampleHeaders ++ [("lambda-runtime-cognito-identity", "not json")]) =
      .error (ApiError.fromJsonError "expected value") ∧
      isMissingHeaderError (ApiError.fromJsonError "expected value") = false) ∧
    (get_event_context pccSample pciSample
        (sampleHeaders ++ [("lambda-runtime-client-context", "cc-json"),
          ("lambda-runtime-cognito-identity", "not json")]) =
      .error (ApiError.fromJsonError "expected value") ∧
      isMissingHeaderError (ApiError.fromJsonError "expected value") = false) :=
  ⟨(decode_invalid_value_failures pccFail pciFail
      (headersNoDeadline ++ [("lambda-runtime-deadline-ms", "soon")])
      "req-1" "arn:aws:lambda:us-east-1:123456789012:function:f" "trace-1"
      (by rfl) (by decide) (by rfl) (by decide) (by rfl) (by decide)).1
      "soon" (by rfl) (by decide) (by rfl),
   (decode_invalid_value_failures pccFail pciFail
      (sampleHeaders ++ [("lambda-runtime-client-context", "not json")])
      "req-1" "arn:aws:lambda:us-east-1:123456789012:function:f" "trace-1"
      (by rfl) (by decide) (by rfl) (by decide) (by rfl) (by decide)).2.1
      "1542409706888" 1542409706888 "not json" "expected value"
      (by rfl) (by decide) (by rfl) (by rfl) (by decide) (by rfl),
   (decode_invalid_value_failures pccFail pciFail
      (sampleHeaders ++ [("lambda-runtime-cognito-identity", "not json")])
      "req-1" "arn:aws:lambda:us-east-1:123456789012:function:f" "trace-1"
      (by rfl) (by decide) (by rfl) (by decide) (by rfl) (by decide)).2.2
      "1542409706888" 1542409706888 "not json" "expected value"
      (by rfl) (by decide) (by rfl) (Or.inl (by rfl)) (by rfl) (by decide) (by rfl),
   (decode_invalid_value_failures pccSample pciSample
      (sampleHeaders ++ [("lambda-runtime-client-context", "cc-json"),
        ("lambda-runtime-cognito-identity", "not json")])
      "req-1" "arn:aws:lambda:us-east-1:123456789012:function:f" "trace-1"
      (by rfl) (by decide) (by rfl) (by decide) (by rfl) (by decide)).2.2
      "1542409706888" 1542409706888 "not json" "expected value"
      (by rfl) (by decide) (by rfl)
      (Or.inr ⟨"cc-json", sampleCC, by rfl, by decide, by rfl⟩)
      (by rfl) (by decide) (by rfl)⟩

/-- C10 counterexample: a header mapping whose request-id header is present
but carries an opaque byte, and which is missing the other three required
headers (so two or more are missing), fails with the to_str conversion
error — not with an error naming the first missing header
(function arn). -/
theorem first_missing_header_counterexample :
    hget badValueHeaders (LambdaHeaders.as_str .FunctionArn) = none ∧
    hget badValueHeaders (LambdaHeaders.as_str .TraceId) = none ∧
    hget badValueHeaders (LambdaHeaders.as_str .Deadline) = none ∧
    get_event_context pccFail pciFail badValueHeaders = .error ApiError.fromToStrError ∧
    isMissingHeaderError ApiError.fromToStrError = false :=
  ⟨rfl, rfl, rfl, rfl, by decide⟩

/-- C10 amended: for every header mapping missing two or more required
headers whose present required headers carry to_str-valid values, decode
reports the first missing header in the fixed check order request id,
function arn, trace id, deadline; an empty mapping always fails with the
missing-request-id error. -/
theorem first_missing_header_in_order (pcc : CCParser) (pci : CIParser) (hm : HeaderMap) :
    (hget hm (LambdaHeaders.as_str .RequestId) = none →
      get_event_context pcc pci hm = .error (missingHeaderError .RequestId)) ∧
    (presentValid hm .RequestId → hget hm (LambdaHeaders.as_str .FunctionArn) = none →
      get_event_context pcc pci hm = .error (missingHeaderError .FunctionArn)) ∧
    (presentValid hm .RequestId → presentValid hm .FunctionArn →
      hget hm (LambdaHeaders.as_str .TraceId) = none →
      get_event_context pcc pci hm = .error (missingHeaderError .TraceId)) ∧
    (presentValid hm .RequestId → presentValid hm .FunctionArn → presentValid hm .TraceId →
      hget hm (LambdaHeaders.as_str .Deadline) = none →
      get_event_context pcc pci hm = .error (missingHeaderError .Deadline)) ∧
    get_event_context pcc pci [] = .error (missingHeaderError .RequestId) := by
  refine ⟨?_, ?_, ?_, ?_, rfl⟩
  · intro h0
    simp [get_event_context, h0]
  · rintro ⟨v₁, h₁, hv₁⟩ h0
    simp [get_event_context, h₁, headerToStr_ok hv₁, h0]
  · rintro ⟨v₁, h₁, hv₁⟩ ⟨v₂, h₂, hv₂⟩ h0
    simp [get_event_context, h₁, headerToStr_ok hv₁, h₂, headerToStr_ok hv₂, h0]
  · rintro ⟨v₁, h₁, hv₁⟩ ⟨v₂, h₂, hv₂⟩ ⟨v₃, h₃, hv₃⟩ h0
    simp [get_event_context, h₁, headerToStr_ok hv₁, h₂, headerToStr_ok hv₂, h₃,
      headerToStr_ok hv₃, h0]

/-- C10 witness: a mapping with only a (valid) request id reports the
missing function arn — the first missing in order — and the empty mapping
reports the missing request id. -/
theorem first_missing_header_in_order_witness :
    get_event_context pccFail pciFail [("lambda-runtime-aws-request-id", "req-1")] =
      .error (missingHeaderError .FunctionArn) ∧
    get_event_context pccFail pciFail [] = .error (missingHeaderError .RequestId) :=
  ⟨(first_missing_header_in_order pccFail pciFail
      [("lambda-runtime-aws-request-id", "req-1")]).2.1 ⟨_, rfl, by decide⟩ (by rfl),
   (first_missing_header_in_order pccFail pciFail []).2.2.2.2⟩

end LambdaRuntimeClient
